import Mathlib

/-!
# WiPS — verification of the position-determination and protocol-encoding pipeline

Shallow embedding of the WiPS sources (geo.cpp / mls.cpp / nmea.cpp / aprs.cpp)
and proofs about them.

Modelling conventions:
* C byte strings are `List Nat` (one `Nat` per byte, always < 256 in practice).
* `unsigned long` (32-bit on the ESP8266 target) subtraction is modelled by
  `usub32`, which wraps modulo 2^32 exactly like the C code does.
* `float`/`double` arithmetic is idealised over `ℝ`; `(int)` casts truncate
  toward zero (`truncR`), `lround` rounds half away from zero (`lroundR`),
  `atan2(y,x)` is `Complex.arg ⟨x, y⟩` (range (-π, π], `atan2(0,0) = 0`,
  matching the C library convention).
* Network and transport I/O is external: its outcome enters the model as
  explicit oracle arguments (provider accuracy/coordinates, transport
  connected flag and byte count written).
* `GEO_MAXACC` comes from `config.h`, which is not in the tree; it is threaded
  through the geolocation models as an explicit parameter `maxacc`.
-/

/-- Bytes of a Lean string literal, used for the fixed ASCII templates that the
C sources keep in PROGMEM. -/
def strBytes (s : String) : List Nat := s.data.map Char.toNat

/-- 32-bit wrapping subtraction `a - b` on `unsigned long`, as performed by
expressions like `millis() - previous.uptm` in the sources. -/
def usub32 (a b : Nat) : Nat :=
  ((a % 4294967296) + 4294967296 - (b % 4294967296)) % 4294967296

namespace GEO

/-- One WiFi fingerprint entry: 6-byte BSSID and signed RSSI in dBm
(`nets_t` in geo.h). -/
structure Net where
  bssid : List Nat
  rssi : Int
deriving DecidableEq, Repr

/-- The first entry of `prev` whose BSSID equals `b`: the inner `for (j …)`
loop of `GEO::networksChanged`, which `break`s at the first BSSID match. -/
def findMatch (b : List Nat) : List Net → Option Net
  | [] => none
  | m :: rest => if m.bssid = b then some m else findMatch b rest

/-- Body of the outer loop of `GEO::networksChanged` for one new entry `n`:
`true` if `n` has no BSSID match in the baseline, or its first match differs
in RSSI by more than 10 dBm. -/
def entryChanged (prev : List Net) (n : Net) : Bool :=
  match findMatch n.bssid prev with
  | none => true
  | some m => 10 < (n.rssi - m.rssi).natAbs

/-- `GEO::networksChanged` (geo.cpp:124-152): the stored baseline is
`prevNets`, the fresh scan is `newNets`. -/
def networksChanged (newNets prevNets : List Net) : Bool :=
  if newNets.length ≠ prevNets.length then true
  else newNets.any (entryChanged prevNets)

/-- The significance predicate exactly as the specification words it:
entry count differs, or an entry present in both fingerprints (same BSSID)
moved by more than 10 dBm, or an entry of the new fingerprint has no BSSID
match in the baseline. -/
def networksChangedSpec (newNets prevNets : List Net) : Prop :=
  newNets.length ≠ prevNets.length ∨
    (∃ n ∈ newNets, ∃ m ∈ prevNets,
      m.bssid = n.bssid ∧ 10 < (n.rssi - m.rssi).natAbs) ∨
    (∃ n ∈ newNets, ∀ m ∈ prevNets, m.bssid ≠ n.bssid)

end GEO

namespace GEO

theorem findMatch_eq_none {b : List Nat} {prev : List Net} :
    findMatch b prev = none ↔ ∀ m ∈ prev, m.bssid ≠ b := by
  induction prev with
  | nil => simp [findMatch]
  | cons a rest ih =>
    by_cases h : a.bssid = b
    · simp [findMatch, h]
    · simp [findMatch, h, ih]

theorem findMatch_mem {b : List Nat} {prev : List Net} {m : Net}
    (h : findMatch b prev = some m) : m ∈ prev ∧ m.bssid = b := by
  induction prev with
  | nil => simp [findMatch] at h
  | cons a rest ih =>
    by_cases ha : a.bssid = b
    · simp [findMatch, ha] at h
      subst h
      exact ⟨List.mem_cons_self _ _, ha⟩
    · simp [findMatch, ha] at h
      rcases ih h with ⟨hmem, hb⟩
      exact ⟨List.mem_cons_of_mem _ hmem, hb⟩

theorem findMatch_of_nodup {prev : List Net} {m : Net}
    (hnd : (prev.map Net.bssid).Nodup) (hm : m ∈ prev) :
    findMatch m.bssid prev = some m := by
  induction prev with
  | nil => simp at hm
  | cons a rest ih =>
    rcases List.mem_cons.mp hm with rfl | hmem
    · simp [findMatch]
    · have hnd' : (rest.map Net.bssid).Nodup := (List.nodup_cons.mp hnd).2
      have hne : a.bssid ≠ m.bssid := by
        intro he
        have : a.bssid ∈ rest.map Net.bssid :=
          he ▸ List.mem_map_of_mem Net.bssid hmem
        exact (List.nodup_cons.mp hnd).1 this
      simp [findMatch, hne, ih hnd' hmem]

end GEO

/-- Concrete two-entry baseline fingerprint used by the spec's change-detection
test vector. -/
def c3base : List GEO.Net :=
  [⟨[1, 2, 3, 4, 5, 6], -50⟩, ⟨[7, 8, 9, 10, 11, 12], -70⟩]

/-- `c3base` with the first entry's RSSI shifted by 5 dBm. -/
def c3shift5 : List GEO.Net :=
  [⟨[1, 2, 3, 4, 5, 6], -55⟩, ⟨[7, 8, 9, 10, 11, 12], -70⟩]

/-- `c3base` with the first entry's RSSI shifted by 15 dBm. -/
def c3shift15 : List GEO.Net :=
  [⟨[1, 2, 3, 4, 5, 6], -65⟩, ⟨[7, 8, 9, 10, 11, 12], -70⟩]

/-- C3: `networksChanged` returns true exactly when the entry count differs,
some entry present in both fingerprints moved by more than 10 dBm, or some new
entry has no BSSID match in the baseline (stated for baselines without
duplicate BSSIDs, which is what a WiFi scan produces — the code compares each
new entry only against the first baseline entry with a matching BSSID); and on
otherwise identical fingerprints a 5 dBm shift is not significant while a
15 dBm shift is. -/
theorem C3_networksChanged_characterization :
    (∀ newNets prevNets : List GEO.Net,
        (prevNets.map GEO.Net.bssid).Nodup →
        (GEO.networksChanged newNets prevNets = true ↔
          GEO.networksChangedSpec newNets prevNets)) ∧
    GEO.networksChanged c3shift5 c3base = false ∧
    GEO.networksChanged c3shift15 c3base = true := by
  refine ⟨?_, by decide, by decide⟩
  intro newNets prevNets hnd
  unfold GEO.networksChanged GEO.networksChangedSpec
  by_cases hlen : newNets.length = prevNets.length
  · simp only [hlen, ne_eq, not_true_eq_false, if_false]
    rw [List.any_eq_true]
    constructor
    · rintro ⟨n, hn, hc⟩
      unfold GEO.entryChanged at hc
      rcases hfm : GEO.findMatch n.bssid prevNets with _ | m
      · exact Or.inr (Or.inr ⟨n, hn, GEO.findMatch_eq_none.mp hfm⟩)
      · rw [hfm] at hc
        simp only [decide_eq_true_eq] at hc
        rcases GEO.findMatch_mem hfm with ⟨hmem, hb⟩
        exact Or.inr (Or.inl ⟨n, hn, m, hmem, hb, hc⟩)
    · rintro (h | ⟨n, hn, m, hm, hb, hd⟩ | ⟨n, hn, hnone⟩)
      · exact h.elim
      · refine ⟨n, hn, ?_⟩
        have : GEO.findMatch n.bssid prevNets = some m := by
          have := GEO.findMatch_of_nodup hnd hm
          rwa [hb] at this
        unfold GEO.entryChanged
        rw [this]
        simpa using hd
      · refine ⟨n, hn, ?_⟩
        unfold GEO.entryChanged
        rw [GEO.findMatch_eq_none.mpr hnone]
  · simp only [hlen, ne_eq, not_false_eq_true, if_true, true_iff]
    exact Or.inl trivial

/-- Witness for C3: the characterization applied to the concrete baseline. -/
theorem C3_networksChanged_witness :
    ((c3base.map GEO.Net.bssid).Nodup) ∧
    (GEO.networksChanged c3shift15 c3base = true ↔
      GEO.networksChangedSpec c3shift15 c3base) :=
  ⟨by decide, C3_networksChanged_characterization.1 c3shift15 c3base (by decide)⟩

namespace APRS

/-- C `toupper` restricted to bytes, as applied by `APRS::doPassCode`. -/
def toUpperByte (b : Nat) : Nat := if 97 ≤ b ∧ b ≤ 122 then b - 32 else b

/-- The `rootCall` buffer of `APRS::doPassCode` (aprs.cpp:88-91): the callsign
uppercased up to, but not including, the first 45 (ASCII for the SSID
separator), where the copy loop stops. -/
def rootCall (callsign : List Nat) : List Nat :=
  (callsign.takeWhile (fun b => b ≠ 45)).map toUpperByte

/-- The hash loop of `APRS::doPassCode` (aprs.cpp:99-103): two bytes per
iteration, high byte shifted left 8; an odd-length root makes the final
low-byte read hit the NUL terminator (0), which XORs in nothing. -/
def passHash : Nat → List Nat → Nat
  | h, [] => h
  | h, [a] => h ^^^ (a <<< 8)
  | h, a :: b :: rest => passHash ((h ^^^ (a <<< 8)) ^^^ b) rest

/-- `APRS::doPassCode` (aprs.cpp:81-106): hash seeded with 0x73E2, masked to
15 bits. -/
def doPassCode (callsign : List Nat) : Nat :=
  passHash 0x73e2 (rootCall callsign) &&& 0x7fff

/-- The byte pairs the specification's words describe: successive pairs of the
root callsign, the final unpaired byte (if any) paired with 0. -/
def toPairs : List Nat → List (Nat × Nat)
  | [] => []
  | [a] => [(a, 0)]
  | a :: b :: rest => (a, b) :: toPairs rest

/-- Passcode as the specification words it: uppercase, strip from the SSID
separator onward, XOR-fold each successive pair of bytes into a 16-bit hash
seeded with 0x73E2, mask to 15 bits. -/
def doPassCodeSpec (callsign : List Nat) : Nat :=
  ((toPairs (rootCall callsign)).foldl
    (fun h p => (h ^^^ (p.1 <<< 8)) ^^^ p.2) 0x73e2) &&& 0x7fff

end APRS

/-- Two-step list induction matching the byte-pair recursion of the passcode
hash. -/
theorem listPairInduction {p : List Nat → Prop} (h0 : p [])
    (h1 : ∀ a, p [a]) (h2 : ∀ a b rest, p rest → p (a :: b :: rest)) :
    ∀ l, p l
  | [] => h0
  | [a] => h1 a
  | a :: b :: rest => h2 a b rest (listPairInduction h0 h1 h2 rest)

theorem passHash_eq_foldPairs (l : List Nat) :
    ∀ h, APRS.passHash h l =
      (APRS.toPairs l).foldl (fun h p => (h ^^^ (p.1 <<< 8)) ^^^ p.2) h := by
  induction l using listPairInduction with
  | h0 => intro h; rfl
  | h1 a => intro h; simp [APRS.passHash, APRS.toPairs]
  | h2 a b rest ih => intro h; simp [APRS.passHash, APRS.toPairs, ih]

theorem rootCall_append_ssid (c s : List Nat) :
    APRS.rootCall (c ++ 45 :: s) = APRS.rootCall c := by
  unfold APRS.rootCall
  congr 1
  induction c with
  | nil => simp [List.takeWhile_cons]
  | cons a t ih =>
    rw [List.cons_append, List.takeWhile_cons, List.takeWhile_cons, ih]

/-- C5: the passcode is the 15-bit masked XOR-fold, over successive byte
pairs, of the uppercased callsign truncated at the first SSID separator, so it
is unchanged by appending a `-SSID` suffix (45 is the separator byte); the
N0CALL test vector ([78,48,67,65,76,76] = "N0CALL", "-9" = [45,57]) gives
13023; and the mask keeps every result in [0, 32767]. -/
theorem C5_doPassCode :
    (∀ c : List Nat, APRS.doPassCode c = APRS.doPassCodeSpec c) ∧
    (∀ c s : List Nat, APRS.doPassCode (c ++ 45 :: s) = APRS.doPassCode c) ∧
    APRS.doPassCode [78, 48, 67, 65, 76, 76] =
      APRS.doPassCode [78, 48, 67, 65, 76, 76, 45, 57] ∧
    APRS.doPassCode [78, 48, 67, 65, 76, 76] = 13023 ∧
    (∀ c : List Nat, APRS.doPassCode c ≤ 32767) := by
  refine ⟨?_, ?_, by decide, by decide, ?_⟩
  · intro c
    unfold APRS.doPassCode APRS.doPassCodeSpec
    rw [passHash_eq_foldPairs]
  · intro c s
    unfold APRS.doPassCode
    rw [rootCall_append_ssid]
  · intro c
    exact Nat.and_le_right

namespace NMEA

/-- Decimal digit bytes of `n`, most significant first (the digit emission of
`snprintf`'s `%d`); fuel-structured so it computes by `decide`. -/
def digitsAux : Nat → Nat → List Nat
  | 0, _ => []
  | fuel + 1, n => if n < 10 then [48 + n] else digitsAux fuel (n / 10) ++ [48 + n % 10]

/-- Decimal digit bytes of `n`. -/
def natDigits (n : Nat) : List Nat := digitsAux (n + 1) n

/-- Left-pad a digit string with zeros ('0' = 48) to width `w`. -/
def padZeros (w : Nat) (ds : List Nat) : List Nat :=
  List.replicate (w - ds.length) 48 ++ ds

/-- `%0wd` of a non-negative value. -/
def fmtNatW (w n : Nat) : List Nat := padZeros w (natDigits n)

/-- `%0wd` of an `int`: a negative value prints '-' (45) and the zero padding
counts the sign, exactly as `printf` does. -/
def fmtIntW (w : Nat) (i : Int) : List Nat :=
  if i < 0 then 45 :: padZeros (w - 1) (natDigits i.natAbs) else fmtNatW w i.toNat

/-- Plain `%d`. -/
def fmtInt (i : Int) : List Nat := fmtIntW 0 i

/-- XOR fold of a byte list starting from 0. -/
def xorFold (l : List Nat) : Nat := l.foldl (fun c b => c ^^^ b) 0

/-- `NMEA::checksum` (nmea.cpp:352-359): skip the leading '$', XOR every
remaining byte of the NUL-terminated sentence body. -/
def checksum (s : List Nat) : Nat := xorFold (s.drop 1)

/-- Upper-case hexadecimal digit byte (for `%02X`). -/
def hexDigit (d : Nat) : Nat := if d < 10 then 48 + d else 55 + d

/-- Two-digit upper-case hex rendering of a byte (`%02X`). -/
def hex2 (n : Nat) : List Nat := [hexDigit (n / 16), hexDigit (n % 16)]

/-- The common `sprintf_P(ckbuf, "*%02X\r\n", checksum(buf)); strcat(buf, ckbuf)`
tail every sentence builder appends: '*' (42), two hex digits, CR LF. -/
def withChecksum (body : List Nat) : List Nat :=
  body ++ 42 :: hex2 (checksum body) ++ [13, 10]

/-- The bytes strictly between the leading '$' and the first '*' of a finished
sentence. -/
def betweenDollarStar (s : List Nat) : List Nat :=
  (s.drop 1).takeWhile (fun b => b ≠ 42)

/-- Value of one hex digit byte. -/
def hexDigitVal (b : Nat) : Nat := if b ≤ 57 then b - 48 else b - 55

/-- The two bytes following the first '*' of a finished sentence. -/
def hexAfterStar (s : List Nat) : List Nat :=
  ((s.dropWhile (fun b => b ≠ 42)).drop 1).take 2

/-- Numeric value of the two-hex-digit checksum field. -/
def hexVal2 (l : List Nat) : Nat :=
  match l with
  | [h, lo] => 16 * hexDigitVal h + hexDigitVal lo
  | _ => 0

/-- NMEA encoder state (nmea.h): cached time decomposition, cached coordinate
decomposition, and the two memoization keys `utmOLD`, `latOLD`/`lngOLD`. -/
structure State where
  yy : Nat
  ll : Nat
  dd : Nat
  hh : Nat
  mm : Nat
  ss : Nat
  utmOLD : Nat
  latDD : Nat
  latMM : Nat
  latFF : Nat
  lngDD : Nat
  lngMM : Nat
  lngFF : Nat
  latOLD : ℝ
  lngOLD : ℝ

/-- The `NMEA::NMEA()` constructor: everything zeroed. -/
def initState : State :=
  { yy := 0, ll := 0, dd := 0, hh := 0, mm := 0, ss := 0, utmOLD := 0,
    latDD := 0, latMM := 0, latFF := 0, lngDD := 0, lngMM := 0, lngFF := 0,
    latOLD := 0, lngOLD := 0 }

/-- `daysInMonth` table of `NMEA::getTime` (non-leap years). -/
def daysInMonth : List Nat := [31, 28, 31, 30, 31, 30, 31, 31, 30, 31, 30, 31]

/-- The year-counting loop of `NMEA::getTime` (nmea.cpp:147-152): returns
(years since 2000, remaining days, leap flag of the final year). Fuel-bounded;
`days < 65536` needs at most 180 iterations, so fuel 65536 never runs out. -/
def yearLoop : Nat → Nat → Nat → Nat × Nat × Nat
  | 0, yy, _ => (yy, 0, if yy % 4 = 0 then 1 else 0)
  | fuel + 1, yy, days =>
    let leap := if yy % 4 = 0 then 1 else 0
    if days < 365 + leap then (yy, days, leap)
    else yearLoop fuel (yy + 1) (days - (365 + leap))

/-- The month-counting loop of `NMEA::getTime` (nmea.cpp:155-162): returns
(month 1-based, remaining days). After the year loop `days < 366`, so the
loop always stops by December; fuel 12 therefore never runs out. -/
def monthLoop : Nat → Nat → Nat → Nat → Nat × Nat
  | _, 0, ll, days => (ll, days)
  | leap, fuel + 1, ll, days =>
    let dpm := daysInMonth.getD (ll - 1) 0 + (if leap = 1 ∧ ll = 2 then 1 else 0)
    if days < dpm then (ll, days)
    else monthLoop leap fuel (ll + 1) (days - dpm)

/-- `NMEA::getTime` (nmea.cpp:123-169). The input is an `unsigned long`
(32-bit) Unix timestamp. Note for the cache update at nmea.cpp:167: by that
point the local `utm` has already been divided down to hours since 2000
(`(utm - 946684800) / 3600`), and that mangled value — not the raw input —
is what gets stored into `utmOLD`. `days` passes through a `uint16_t`. -/
def getTime (s : State) (utm : Nat) : State :=
  if utm % 4294967296 = s.utmOLD then s
  else
    let u0 := usub32 utm 946684800
    let u1 := u0 / 60
    let u2 := u1 / 60
    let days := (u2 / 24) % 65536
    let yl := yearLoop 65536 0 days
    let ml := monthLoop yl.2.2 12 1 yl.2.1
    { s with ss := u0 % 60, mm := u1 % 60, hh := u2 % 24,
             yy := yl.1, ll := ml.1, dd := ml.2 + 1, utmOLD := u2 }

/-- The cache-free decomposition of a timestamp, i.e. exactly what the body of
`NMEA::getTime` computes for its input: (yy, ll, dd, hh, mm, ss). -/
def timeFields (utm : Nat) : Nat × Nat × Nat × Nat × Nat × Nat :=
  let u0 := usub32 utm 946684800
  let u1 := u0 / 60
  let u2 := u1 / 60
  let days := (u2 / 24) % 65536
  let yl := yearLoop 65536 0 days
  let ml := monthLoop yl.2.2 12 1 yl.2.1
  (yl.1, ml.1, ml.2 + 1, u2 % 24, u1 % 60, u0 % 60)

/-- `NMEA::getCoords` (nmea.cpp:84-112): decompose each coordinate into
degrees, whole minutes and 4-digit fractional minutes, recomputing only when
the raw input differs from the cached previous input. -/
noncomputable def getCoords (s : State) (lat lng : ℝ) : State :=
  let s1 :=
    if lat = s.latOLD then s
    else
      let dd := (⌊|lat|⌋).toNat
      let mmFull := (⌊(|lat| - (dd : ℝ)) * 60 * 10000⌋).toNat
      { s with latDD := dd, latFF := mmFull % 10000, latMM := mmFull / 10000,
               latOLD := lat }
  if lng = s1.lngOLD then s1
  else
    let dd := (⌊|lng|⌋).toNat
    let mmFull := (⌊(|lng| - (dd : ℝ)) * 60 * 10000⌋).toNat
    { s1 with lngDD := dd, lngFF := mmFull % 10000, lngMM := mmFull / 10000,
              lngOLD := lng }

/-- The `lat >= 0 ? 'N' : 'S'` ternary. -/
noncomputable def nsChar (lat : ℝ) : Nat := if 0 ≤ lat then 78 else 83

/-- The `lng >= 0 ? 'E' : 'W'` ternary. -/
noncomputable def ewChar (lng : ℝ) : Nat := if 0 ≤ lng then 69 else 87

/-- Body (before `*checksum`) of `$GPGGA,…` as formatted at nmea.cpp:196-200,
minus the leading '$'. -/
noncomputable def ggaBody (st : State) (lat lng : ℝ) (fix sat : Int) : List Nat :=
  strBytes "GPGGA," ++ fmtNatW 2 st.hh ++ fmtNatW 2 st.mm ++ fmtNatW 2 st.ss ++
    strBytes ".0," ++
    fmtNatW 2 st.latDD ++ fmtNatW 2 st.latMM ++ [46] ++ fmtNatW 4 st.latFF ++
    [44] ++ [nsChar lat] ++ [44] ++
    fmtNatW 3 st.lngDD ++ fmtNatW 2 st.lngMM ++ [46] ++ fmtNatW 4 st.lngFF ++
    [44] ++ [ewChar lng] ++ [44] ++
    fmtInt fix ++ [44] ++ fmtInt sat ++ strBytes ",1,0,M,0,M,,"

/-- `NMEA::getGGA` (nmea.cpp:188-208): update the coordinate and time caches,
format the body, append the checksum tail. -/
noncomputable def getGGA (s : State) (utm : Nat) (lat lng : ℝ) (fix sat : Int) :
    State × List Nat :=
  let s1 := getCoords s lat lng
  let s2 := getTime s1 utm
  (s2, withChecksum (36 :: ggaBody s2 lat lng fix sat))

/-- Body of `$GPRMC,…` (nmea.cpp:235-240), minus the leading '$'. -/
noncomputable def rmcBody (st : State) (lat lng : ℝ) (spd crs : Int) : List Nat :=
  strBytes "GPRMC," ++ fmtNatW 2 st.hh ++ fmtNatW 2 st.mm ++ fmtNatW 2 st.ss ++
    strBytes ".0,A," ++
    fmtNatW 2 st.latDD ++ fmtNatW 2 st.latMM ++ [46] ++ fmtNatW 4 st.latFF ++
    [44] ++ [nsChar lat] ++ [44] ++
    fmtNatW 3 st.lngDD ++ fmtNatW 2 st.lngMM ++ [46] ++ fmtNatW 4 st.lngFF ++
    [44] ++ [ewChar lng] ++ [44] ++
    fmtIntW 3 spd ++ strBytes ".0," ++ fmtIntW 3 (if 0 < crs then crs else 0) ++
    strBytes ".0," ++ fmtNatW 2 st.dd ++ fmtNatW 2 st.ll ++ fmtNatW 2 st.yy ++
    strBytes ",,,E"

/-- `NMEA::getRMC` (nmea.cpp:227-248). -/
noncomputable def getRMC (s : State) (utm : Nat) (lat lng : ℝ) (spd crs : Int) :
    State × List Nat :=
  let s1 := getCoords s lat lng
  let s2 := getTime s1 utm
  (s2, withChecksum (36 :: rmcBody s2 lat lng spd crs))

/-- Body of `$GPGLL,…` (nmea.cpp:272-275), minus the leading '$'. -/
noncomputable def gllBody (st : State) (lat lng : ℝ) : List Nat :=
  strBytes "GPGLL," ++
    fmtNatW 2 st.latDD ++ fmtNatW 2 st.latMM ++ [46] ++ fmtNatW 4 st.latFF ++
    [44] ++ [nsChar lat] ++ [44] ++
    fmtNatW 3 st.lngDD ++ fmtNatW 2 st.lngMM ++ [46] ++ fmtNatW 4 st.lngFF ++
    [44] ++ [ewChar lng] ++ [44] ++
    fmtNatW 2 st.hh ++ fmtNatW 2 st.mm ++ fmtNatW 2 st.ss ++ strBytes ".0,A,E"

/-- `NMEA::getGLL` (nmea.cpp:264-283). -/
noncomputable def getGLL (s : State) (utm : Nat) (lat lng : ℝ) :
    State × List Nat :=
  let s1 := getCoords s lat lng
  let s2 := getTime s1 utm
  (s2, withChecksum (36 :: gllBody s2 lat lng))

/-- `NMEA::getVTG` (nmea.cpp:299-312); stateless. -/
def getVTG (crs knots kmh : Int) : List Nat :=
  withChecksum (36 ::
    (strBytes "GPVTG," ++ fmtIntW 3 (if 0 < crs then crs else 0) ++
      strBytes ".0,T,,M," ++ fmtIntW 3 knots ++ strBytes ".0,N," ++
      fmtIntW 3 kmh ++ strBytes ".0,K,E"))

/-- `NMEA::getZDA` (nmea.cpp:326-341): time cache only. -/
def getZDA (s : State) (utm : Nat) : State × List Nat :=
  let s2 := getTime s utm
  (s2, withChecksum (36 ::
    (strBytes "GPZDA," ++ fmtNatW 2 s2.hh ++ fmtNatW 2 s2.mm ++
      fmtNatW 2 s2.ss ++ strBytes ".0," ++ fmtNatW 2 s2.dd ++ [44] ++
      fmtNatW 2 s2.ll ++ [44] ++ fmtNatW 4 (s2.yy + 2000) ++ strBytes ",,")))

/-- `NMEA::getWelcome` (nmea.cpp:56-72), with the `__DATE__` build constant
modelled as the `date` argument; the `welcome` buffer starts empty. -/
def getWelcome (name vers date : List Nat) : List Nat :=
  withChecksum (36 :: (strBytes "PVERS," ++ name ++ [44] ++ vers ++ [44] ++ date))

end NMEA

/-- Bytes that can appear in a sentence body after the '$': plain ASCII and
not the '*' (42) delimiter. -/
def okBytes (l : List Nat) : Prop := ∀ b ∈ l, b < 128 ∧ b ≠ 42

theorem okBytes_append {a b : List Nat} (ha : okBytes a) (hb : okBytes b) :
    okBytes (a ++ b) := by
  intro x hx
  rcases List.mem_append.mp hx with h | h
  · exact ha x h
  · exact hb x h

theorem okBytes_digitsAux (fuel : Nat) : ∀ n, okBytes (NMEA.digitsAux fuel n) := by
  induction fuel with
  | zero => intro n b hb; simp [NMEA.digitsAux] at hb
  | succ f ih =>
    intro n b hb
    unfold NMEA.digitsAux at hb
    by_cases h : n < 10
    · simp [h] at hb
      omega
    · simp [h] at hb
      rcases hb with hb | hb
      · exact ih (n / 10) b hb
      · have : n % 10 < 10 := Nat.mod_lt _ (by norm_num)
        omega

theorem okBytes_natDigits (n : Nat) : okBytes (NMEA.natDigits n) :=
  okBytes_digitsAux (n + 1) n

theorem okBytes_padZeros (w : Nat) {ds : List Nat} (h : okBytes ds) :
    okBytes (NMEA.padZeros w ds) := by
  refine okBytes_append ?_ h
  intro b hb
  have := List.eq_of_mem_replicate hb
  omega

theorem okBytes_fmtNatW (w n : Nat) : okBytes (NMEA.fmtNatW w n) :=
  okBytes_padZeros w (okBytes_natDigits n)

theorem okBytes_fmtIntW (w : Nat) (i : Int) : okBytes (NMEA.fmtIntW w i) := by
  unfold NMEA.fmtIntW
  by_cases h : i < 0
  · simp only [h, if_true]
    intro b hb
    rcases List.mem_cons.mp hb with rfl | hb
    · omega
    · exact okBytes_padZeros _ (okBytes_natDigits _) b hb
  · simp only [h, if_false]
    exact okBytes_fmtNatW w i.toNat

theorem okBytes_fmtInt (i : Int) : okBytes (NMEA.fmtInt i) := okBytes_fmtIntW 0 i

theorem okBytes_nsChar (lat : ℝ) : okBytes [NMEA.nsChar lat] := by
  intro b hb
  unfold NMEA.nsChar at hb
  by_cases h : (0 : ℝ) ≤ lat <;> simp [h] at hb <;> omega

theorem okBytes_ewChar (lng : ℝ) : okBytes [NMEA.ewChar lng] := by
  intro b hb
  unfold NMEA.ewChar at hb
  by_cases h : (0 : ℝ) ≤ lng <;> simp [h] at hb <;> omega

theorem takeWhileNe_append {l tail : List Nat} (hl : okBytes l) :
    (l ++ 42 :: tail).takeWhile (fun b => b ≠ 42) = l := by
  induction l with
  | nil => simp [List.takeWhile_cons]
  | cons a t ih =>
    have ha : a ≠ 42 := (hl a (List.mem_cons_self _ _)).2
    have ht : okBytes t := fun b hb => hl b (List.mem_cons_of_mem _ hb)
    rw [List.cons_append, List.takeWhile_cons, ih ht]
    simp [ha]

theorem dropWhileNe_append {l tail : List Nat} (hl : okBytes l) :
    (l ++ 42 :: tail).dropWhile (fun b => b ≠ 42) = 42 :: tail := by
  induction l with
  | nil => simp [List.dropWhile_cons]
  | cons a t ih =>
    have ha : a ≠ 42 := (hl a (List.mem_cons_self _ _)).2
    have ht : okBytes t := fun b hb => hl b (List.mem_cons_of_mem _ hb)
    rw [List.cons_append, List.dropWhile_cons, ih ht]
    simp [ha]

theorem xorFold_lt_128 {l : List Nat} (h : ∀ b ∈ l, b < 128) :
    NMEA.xorFold l < 128 := by
  unfold NMEA.xorFold
  have key : ∀ (l : List Nat), (∀ b ∈ l, b < 128) → ∀ acc < 128,
      l.foldl (fun c b => c ^^^ b) acc < 128 := by
    intro l
    induction l with
    | nil => intro _ acc hacc; simpa using hacc
    | cons a t ih =>
      intro hmem acc hacc
      have ha : a < 128 := hmem a (List.mem_cons_self _ _)
      have ht : ∀ b ∈ t, b < 128 := fun b hb => hmem b (List.mem_cons_of_mem _ hb)
      have : acc ^^^ a < 128 := by
        have := Nat.xor_lt_two_pow (n := 7) (by simpa using hacc) (by simpa using ha)
        simpa using this
      exact ih ht (acc ^^^ a) this
  exact key l h 0 (by norm_num)

theorem hexDigitVal_hexDigit {d : Nat} (h : d < 16) :
    NMEA.hexDigitVal (NMEA.hexDigit d) = d := by
  unfold NMEA.hexDigit NMEA.hexDigitVal
  by_cases h1 : d < 10
  · have h2 : 48 + d ≤ 57 := by omega
    simp only [h1, if_true, h2]
    omega
  · have h2 : ¬(55 + d ≤ 57) := by omega
    simp only [h1, if_false, h2]
    omega

theorem hexVal2_hex2 {n : Nat} (h : n < 256) : NMEA.hexVal2 (NMEA.hex2 n) = n := by
  show 16 * NMEA.hexDigitVal (NMEA.hexDigit (n / 16)) +
      NMEA.hexDigitVal (NMEA.hexDigit (n % 16)) = n
  rw [hexDigitVal_hexDigit (by omega), hexDigitVal_hexDigit (by omega)]
  omega

theorem withChecksum_cons (rest : List Nat) :
    NMEA.withChecksum (36 :: rest) =
      36 :: (rest ++ 42 :: (NMEA.hex2 (NMEA.checksum (36 :: rest)) ++ [13, 10])) := by
  unfold NMEA.withChecksum
  simp

theorem between_withChecksum {rest : List Nat} (h : okBytes rest) :
    NMEA.betweenDollarStar (NMEA.withChecksum (36 :: rest)) = rest := by
  rw [NMEA.betweenDollarStar, withChecksum_cons, List.drop_one, List.tail_cons]
  exact takeWhileNe_append h

theorem hexAfter_withChecksum {rest : List Nat} (h : okBytes rest) :
    NMEA.hexAfterStar (NMEA.withChecksum (36 :: rest)) =
      NMEA.hex2 (NMEA.checksum (36 :: rest)) := by
  rw [NMEA.hexAfterStar, withChecksum_cons]
  rw [List.dropWhile_cons]
  have h36 : ((36 : Nat) ≠ 42) = True := by simp
  simp only [h36, decide_true_eq_true, if_true]
  rw [dropWhileNe_append h, List.drop_one, List.tail_cons]
  rfl

/-- The sentence property the C4 claim states: the two-hex-digit value after
the '*' equals the XOR of all bytes strictly between the leading '$' and the
'*'. -/
def checksumOK (s : List Nat) : Prop :=
  NMEA.hexVal2 (NMEA.hexAfterStar s) = NMEA.xorFold (NMEA.betweenDollarStar s)

/-- Every sentence assembled as `'$' :: body` plus the shared checksum tail
satisfies the checksum property, provided the body is plain ASCII without
'*'. -/
theorem checksumOK_withChecksum {rest : List Nat} (h : okBytes rest) :
    checksumOK (NMEA.withChecksum (36 :: rest)) := by
  unfold checksumOK
  rw [between_withChecksum h, hexAfter_withChecksum h]
  have hck : NMEA.checksum (36 :: rest) = NMEA.xorFold rest := rfl
  have hlt : NMEA.xorFold rest < 128 := xorFold_lt_128 (fun b hb => (h b hb).1)
  rw [hck, hexVal2_hex2 (by omega)]

/-- Establish `okBytes` for a concrete byte list by Boolean evaluation. -/
theorem okBytes_ofDecide (l : List Nat)
    (h : l.all (fun b => decide (b < 128) && decide (b ≠ 42)) = true) :
    okBytes l := by
  intro b hb
  have := List.all_eq_true.mp h b hb
  simpa using this

theorem okBytes_ggaBody (st : NMEA.State) (lat lng : ℝ) (fix sat : Int) :
    okBytes (NMEA.ggaBody st lat lng fix sat) := by
  unfold NMEA.ggaBody
  exact (okBytes_append (okBytes_append (okBytes_append (okBytes_append (okBytes_append
    (okBytes_append (okBytes_append (okBytes_append (okBytes_append (okBytes_append
    (okBytes_append (okBytes_append (okBytes_append (okBytes_append (okBytes_append
    (okBytes_append (okBytes_append (okBytes_append (okBytes_append (okBytes_append
    (okBytes_append (okBytes_append (okBytes_ofDecide _ (by decide)) (okBytes_fmtNatW _ _))
    (okBytes_fmtNatW _ _)) (okBytes_fmtNatW _ _)) (okBytes_ofDecide _ (by decide)))
    (okBytes_fmtNatW _ _)) (okBytes_fmtNatW _ _)) (okBytes_ofDecide _ (by decide)))
    (okBytes_fmtNatW _ _)) (okBytes_ofDecide _ (by decide))) (okBytes_nsChar _)) (okBytes_ofDecide
    _ (by decide))) (okBytes_fmtNatW _ _)) (okBytes_fmtNatW _ _)) (okBytes_ofDecide _ (by
    decide))) (okBytes_fmtNatW _ _)) (okBytes_ofDecide _ (by decide))) (okBytes_ewChar _))
    (okBytes_ofDecide _ (by decide))) (okBytes_fmtInt _)) (okBytes_ofDecide _ (by decide)))
    (okBytes_fmtInt _)) (okBytes_ofDecide _ (by decide)))

theorem okBytes_rmcBody (st : NMEA.State) (lat lng : ℝ) (spd crs : Int) :
    okBytes (NMEA.rmcBody st lat lng spd crs) := by
  unfold NMEA.rmcBody
  exact (okBytes_append (okBytes_append (okBytes_append (okBytes_append (okBytes_append
    (okBytes_append (okBytes_append (okBytes_append (okBytes_append (okBytes_append
    (okBytes_append (okBytes_append (okBytes_append (okBytes_append (okBytes_append
    (okBytes_append (okBytes_append (okBytes_append (okBytes_append (okBytes_append
    (okBytes_append (okBytes_append (okBytes_append (okBytes_append (okBytes_append
    (okBytes_append (okBytes_ofDecide _ (by decide)) (okBytes_fmtNatW _ _)) (okBytes_fmtNatW _ _))
    (okBytes_fmtNatW _ _)) (okBytes_ofDecide _ (by decide))) (okBytes_fmtNatW _ _))
    (okBytes_fmtNatW _ _)) (okBytes_ofDecide _ (by decide))) (okBytes_fmtNatW _ _))
    (okBytes_ofDecide _ (by decide))) (okBytes_nsChar _)) (okBytes_ofDecide _ (by decide)))
    (okBytes_fmtNatW _ _)) (okBytes_fmtNatW _ _)) (okBytes_ofDecide _ (by decide)))
    (okBytes_fmtNatW _ _)) (okBytes_ofDecide _ (by decide))) (okBytes_ewChar _)) (okBytes_ofDecide
    _ (by decide))) (okBytes_fmtIntW _ _)) (okBytes_ofDecide _ (by decide))) (okBytes_fmtIntW _
    _)) (okBytes_ofDecide _ (by decide))) (okBytes_fmtNatW _ _)) (okBytes_fmtNatW _ _))
    (okBytes_fmtNatW _ _)) (okBytes_ofDecide _ (by decide)))

theorem okBytes_gllBody (st : NMEA.State) (lat lng : ℝ) :
    okBytes (NMEA.gllBody st lat lng) := by
  unfold NMEA.gllBody
  exact (okBytes_append (okBytes_append (okBytes_append (okBytes_append (okBytes_append
    (okBytes_append (okBytes_append (okBytes_append (okBytes_append (okBytes_append
    (okBytes_append (okBytes_append (okBytes_append (okBytes_append (okBytes_append
    (okBytes_append (okBytes_append (okBytes_append (okBytes_ofDecide _ (by decide))
    (okBytes_fmtNatW _ _)) (okBytes_fmtNatW _ _)) (okBytes_ofDecide _ (by decide)))
    (okBytes_fmtNatW _ _)) (okBytes_ofDecide _ (by decide))) (okBytes_nsChar _)) (okBytes_ofDecide
    _ (by decide))) (okBytes_fmtNatW _ _)) (okBytes_fmtNatW _ _)) (okBytes_ofDecide _ (by
    decide))) (okBytes_fmtNatW _ _)) (okBytes_ofDecide _ (by decide))) (okBytes_ewChar _))
    (okBytes_ofDecide _ (by decide))) (okBytes_fmtNatW _ _)) (okBytes_fmtNatW _ _))
    (okBytes_fmtNatW _ _)) (okBytes_ofDecide _ (by decide)))

/-- C4: for every sentence produced by getGGA, getRMC, getGLL, getVTG, getZDA
and getWelcome (the latter for '*'-free ASCII name/version/date inputs, which
is what the firmware passes), the two hex digits after '*' equal the XOR of
all bytes strictly between the leading '$' and the '*'; and the checksum is a
pure function, so equal bodies yield equal checksums. -/
theorem C4_nmea_checksums :
    (∀ (s : NMEA.State) (utm : Nat) (lat lng : ℝ) (fix sat : Int),
      checksumOK (NMEA.getGGA s utm lat lng fix sat).2) ∧
    (∀ (s : NMEA.State) (utm : Nat) (lat lng : ℝ) (spd crs : Int),
      checksumOK (NMEA.getRMC s utm lat lng spd crs).2) ∧
    (∀ (s : NMEA.State) (utm : Nat) (lat lng : ℝ),
      checksumOK (NMEA.getGLL s utm lat lng).2) ∧
    (∀ crs knots kmh : Int, checksumOK (NMEA.getVTG crs knots kmh)) ∧
    (∀ (s : NMEA.State) (utm : Nat), checksumOK (NMEA.getZDA s utm).2) ∧
    (∀ name vers date : List Nat, okBytes name → okBytes vers → okBytes date →
      checksumOK (NMEA.getWelcome name vers date)) ∧
    (∀ b1 b2 : List Nat, b1 = b2 → NMEA.checksum b1 = NMEA.checksum b2) := by
  refine ⟨?_, ?_, ?_, ?_, ?_, ?_, fun b1 b2 he => he ▸ rfl⟩
  · intro s utm lat lng fix sat
    simp only [NMEA.getGGA]
    exact checksumOK_withChecksum (okBytes_ggaBody _ _ _ _ _)
  · intro s utm lat lng spd crs
    simp only [NMEA.getRMC]
    exact checksumOK_withChecksum (okBytes_rmcBody _ _ _ _ _)
  · intro s utm lat lng
    simp only [NMEA.getGLL]
    exact checksumOK_withChecksum (okBytes_gllBody _ _ _)
  · intro crs knots kmh
    unfold NMEA.getVTG
    refine checksumOK_withChecksum ?_
    exact (okBytes_append (okBytes_append (okBytes_append (okBytes_append (okBytes_append
      (okBytes_append (okBytes_ofDecide _ (by decide)) (okBytes_fmtIntW _ _)) (okBytes_ofDecide _
      (by decide))) (okBytes_fmtIntW _ _)) (okBytes_ofDecide _ (by decide))) (okBytes_fmtIntW _
      _)) (okBytes_ofDecide _ (by decide)))
  · intro s utm
    simp only [NMEA.getZDA]
    refine checksumOK_withChecksum ?_
    exact (okBytes_append (okBytes_append (okBytes_append (okBytes_append (okBytes_append
      (okBytes_append (okBytes_append (okBytes_append (okBytes_append (okBytes_append
      (okBytes_ofDecide _ (by decide)) (okBytes_fmtNatW _ _)) (okBytes_fmtNatW _ _))
      (okBytes_fmtNatW _ _)) (okBytes_ofDecide _ (by decide))) (okBytes_fmtNatW _ _))
      (okBytes_ofDecide _ (by decide))) (okBytes_fmtNatW _ _)) (okBytes_ofDecide _ (by decide)))
      (okBytes_fmtNatW _ _)) (okBytes_ofDecide _ (by decide)))
  · intro name vers date hn hv hd
    unfold NMEA.getWelcome
    refine checksumOK_withChecksum ?_
    exact (okBytes_append (okBytes_append (okBytes_append (okBytes_append (okBytes_append
      (okBytes_ofDecide _ (by decide)) hn) (okBytes_ofDecide _ (by decide))) hv) (okBytes_ofDecide
      _ (by decide))) hd)

/-- Witness for C4: the getWelcome conjunct at the firmware's actual
arguments, name "WiPS" and version "0.4.1" with a sample build date. -/
theorem C4_nmea_checksums_witness :
    checksumOK (NMEA.getWelcome (strBytes "WiPS") (strBytes "0.4.1")
      (strBytes "Jan  1 2025")) :=
  C4_nmea_checksums.2.2.2.2.2.1 _ _ _ (okBytes_ofDecide _ (by decide))
    (okBytes_ofDecide _ (by decide)) (okBytes_ofDecide _ (by decide))

/-- C9 (code bug): the `getTime` memoization is keyed on a mangled value, not
the raw input. After `getTime(946692000)` (02:00:00 on 2000-01-01) the cache
key `utmOLD` holds 2 — the hour count `(utm-946684800)/3600` left in the local
variable at nmea.cpp:167 — instead of 946692000. Hence (a) an immediately
repeated call with the identical timestamp misses the cache (the guard
`utm != utmOLD` at nmea.cpp:128 is true) and recomputes, and (b) a call with
`utm = 2` wrongly hits the cache and keeps the stale 02:00 hour field and the
stale key, although the direct decomposition of 2 (which underflows the
32-bit epoch subtraction) has hour 6. `getCoords`, by contrast, stores its
raw inputs in `latOLD`/`lngOLD`. -/
theorem C9_getTime_cache_key :
    (NMEA.getTime NMEA.initState 946692000).utmOLD = 2 ∧
    (NMEA.getTime NMEA.initState 946692000).hh = 2 ∧
    946692000 % 4294967296 ≠ (NMEA.getTime NMEA.initState 946692000).utmOLD ∧
    (NMEA.getTime (NMEA.getTime NMEA.initState 946692000) 2).hh = 2 ∧
    (NMEA.getTime (NMEA.getTime NMEA.initState 946692000) 2).utmOLD = 2 ∧
    (NMEA.timeFields 2).2.2.2.1 = 6 := by
  exact ⟨by decide, by decide, by decide, by decide, by decide, by decide⟩

/-- A location fix (`geo_t` in geo.h/mls.h): coordinates (type parameter `α`
stands for `float`), validity flag, acquisition uptime in milliseconds. -/
structure GeoFix (α : Type) where
  latitude : α
  longitude : α
  valid : Bool
  uptm : Nat
deriving DecidableEq, Repr

/-- The fix-tracking state of the `GEO` class: `current`/`previous` fixes,
cached Maidenhead locator (type `L`; the encoder itself is float math and is
threaded through as a parameter), the last scan and the stored baseline. -/
structure GEOState (α L : Type) where
  current : GeoFix α
  previous : GeoFix α
  locator : L
  nets : List GEO.Net
  prevNets : List GEO.Net
deriving DecidableEq, Repr

namespace GEO

/-- `GEO::geoLocation` (geo.cpp:170-237). External effects enter as oracle
arguments: `now` is `millis()`, `acc` is the accuracy returned by the
geolocation backend (`geo_ls.geoLocation`), `temp` is the `temp` struct after
that call. `loc` is the `getLocator` coordinate encoder, `maxacc` is
`GEO_MAXACC` (from the absent config.h).

Control flow mirrored from the source: (1) if the fingerprint shows no
significant change and the current fix is valid, refresh `current.uptm` and
the locator and return accuracy 1 without consulting the backend; otherwise
(2) store the scan as the new baseline, call the backend, invalidate a
`previous` older than one hour, then (3) on an accepted accuracy
(0 ≤ acc ≤ GEO_MAXACC) promote a valid `current` to `previous` and overwrite
`current` from `temp`, or (4) on a rejected one only clear `current.valid`.
The dead `err` variable of the source (initialised to -1 and never assigned,
so the final `if (err > 0) acc = -err` never fires) is omitted. -/
def geoLocation {α L : Type} (maxacc : Int) (loc : α → α → L)
    (s : GEOState α L) (now : Nat) (acc : Int) (temp : GeoFix α) :
    Int × GEOState α L :=
  if networksChanged s.nets s.prevNets = false ∧ s.current.valid = true then
    (1, { s with current := { s.current with uptm := now },
                 locator := loc s.current.latitude s.current.longitude })
  else if 0 ≤ acc ∧ acc ≤ maxacc then
    (acc, { current := { latitude := temp.latitude, longitude := temp.longitude,
                         valid := true, uptm := temp.uptm },
            previous := if s.current.valid = true then s.current
                        else if 3600000 < usub32 now s.previous.uptm
                             then { s.previous with valid := false }
                             else s.previous,
            locator := loc temp.latitude temp.longitude,
            nets := s.nets, prevNets := s.nets })
  else
    (acc, { current := { s.current with valid := false },
            previous := if 3600000 < usub32 now s.previous.uptm
                        then { s.previous with valid := false } else s.previous,
            locator := s.locator, nets := s.nets, prevNets := s.nets })

end GEO

/-- The fix-tracking state of the `MLS` class (mls.h): no change detector. -/
structure MLSState (α L : Type) where
  current : GeoFix α
  previous : GeoFix α
  locator : L
deriving DecidableEq, Repr

namespace MLS

/-- `MLS::geoLocation` (mls.cpp:82-233). `connected` is the outcome of the
TLS connect; `acc`/`err` are the values parsed from the response, `lat`/`lng`
the parsed coordinates, `now` the `millis()` captured before the request.
If the connect fails, the entire body is skipped and the initial `acc = -1`
is returned with the state untouched. -/
def geoLocation {α L : Type} (maxacc : Int) (loc : α → α → L)
    (s : MLSState α L) (connected : Bool) (now : Nat)
    (acc err : Int) (lat lng : α) : Int × MLSState α L :=
  if connected = true then
    if 0 ≤ acc ∧ acc ≤ maxacc then
      ((if 0 < err then -err else acc),
       { current := { latitude := lat, longitude := lng, valid := true, uptm := now },
         previous := if s.current.valid = true then s.current
                     else if 3600000 < usub32 now s.previous.uptm
                          then { s.previous with valid := false }
                          else s.previous,
         locator := loc lat lng })
    else
      ((if 0 < err then -err else acc),
       { s with current := { s.current with valid := false },
                previous := if 3600000 < usub32 now s.previous.uptm
                            then { s.previous with valid := false }
                            else s.previous })
  else (-1, s)

end MLS

/-- C2: when the fingerprint shows no significant change and the current fix
is valid, `GEO::geoLocation` returns accuracy 1 and only refreshes
`current.uptm` and the cached locator: latitude, longitude, validity, the
whole `previous` fix and the stored baseline are untouched, and the result is
the same for every backend oracle outcome (`acc`, `temp`), i.e. the backend
is never consulted. -/
theorem C2_geoLocation_skip {α L : Type} (maxacc : Int) (loc : α → α → L)
    (s : GEOState α L) (now : Nat) (acc : Int) (temp : GeoFix α)
    (hns : GEO.networksChanged s.nets s.prevNets = false)
    (hcv : s.current.valid = true) :
    GEO.geoLocation maxacc loc s now acc temp =
      (1, { s with current := { s.current with uptm := now },
                   locator := loc s.current.latitude s.current.longitude }) := by
  unfold GEO.geoLocation
  rw [if_pos ⟨hns, hcv⟩]

/-- Concrete state for the C2 witness: empty scan and baseline (unchanged
fingerprint), valid current fix. -/
def c2state : GEOState Int Int :=
  { current := ⟨45, 10, true, 100⟩, previous := ⟨44, 9, false, 50⟩,
    locator := 7, nets := [], prevNets := [] }

/-- Witness for C2 at two different oracle outcomes. -/
theorem C2_geoLocation_skip_witness :
    GEO.geoLocation 2500 (fun a b => a + b) c2state 200 50 ⟨1, 2, true, 150⟩ =
      (1, { c2state with
            current := { c2state.current with uptm := 200 },
            locator := c2state.current.latitude + c2state.current.longitude }) ∧
    GEO.geoLocation 2500 (fun a b => a + b) c2state 200 (-4) ⟨3, 4, false, 60⟩ =
      (1, { c2state with
            current := { c2state.current with uptm := 200 },
            locator := c2state.current.latitude + c2state.current.longitude }) :=
  ⟨C2_geoLocation_skip 2500 _ c2state 200 50 _ (by decide) (by decide),
   C2_geoLocation_skip 2500 _ c2state 200 (-4) _ (by decide) (by decide)⟩

/-- Concrete MLS state for the C1 counterexample: a valid current fix. -/
def c1state : MLSState Int Int :=
  { current := ⟨45, 10, true, 5000⟩, previous := ⟨44, 9, false, 1000⟩, locator := 0 }

/-- C1 as stated is false on `MLS::geoLocation`: when the TLS connect fails,
the call returns -1 — an accuracy outside [0, GEO_MAXACC], i.e. a failed
result — yet `current.valid` stays true instead of being set to false. -/
theorem C1_counterexample_mls_connect_failure :
    MLS.geoLocation 2500 (fun a b => a + b) c1state false 6000 (-1) (-1) 0 0 =
      (-1, c1state) ∧
    c1state.current.valid = true ∧
    ¬(0 ≤ (-1 : Int) ∧ (-1 : Int) ≤ 2500) :=
  ⟨rfl, rfl, by decide⟩

/-- C1 (amended): in `GEO::geoLocation`, `previous` receives new coordinate
data only as a copy of a `current` fix that was valid, and a rejected or
failed backend result sets `current.valid = false` while leaving `previous`
unchanged apart from the independent one-hour staleness invalidation.
`MLS::geoLocation` satisfies the same two properties whenever the TLS
connection succeeds; when the connect fails it returns -1 and leaves the
whole state — including `current.valid` — untouched. -/
theorem C1_previous_discipline {α L : Type} (maxacc : Int) (loc : α → α → L) :
    (∀ (s : GEOState α L) (now : Nat) (acc : Int) (temp : GeoFix α),
      (((GEO.geoLocation maxacc loc s now acc temp).2.previous.latitude ≠
            s.previous.latitude ∨
        (GEO.geoLocation maxacc loc s now acc temp).2.previous.longitude ≠
            s.previous.longitude ∨
        (GEO.geoLocation maxacc loc s now acc temp).2.previous.uptm ≠
            s.previous.uptm) →
        s.current.valid = true ∧
        (GEO.geoLocation maxacc loc s now acc temp).2.previous = s.current) ∧
      (¬(GEO.networksChanged s.nets s.prevNets = false ∧ s.current.valid = true) →
        ¬(0 ≤ acc ∧ acc ≤ maxacc) →
        (GEO.geoLocation maxacc loc s now acc temp).1 = acc ∧
        (GEO.geoLocation maxacc loc s now acc temp).2.current.valid = false ∧
        (GEO.geoLocation maxacc loc s now acc temp).2.previous =
          (if 3600000 < usub32 now s.previous.uptm
           then { s.previous with valid := false } else s.previous))) ∧
    (∀ (s : MLSState α L) (now : Nat) (acc err : Int) (lat lng : α),
      (((MLS.geoLocation maxacc loc s true now acc err lat lng).2.previous.latitude ≠
            s.previous.latitude ∨
        (MLS.geoLocation maxacc loc s true now acc err lat lng).2.previous.longitude ≠
            s.previous.longitude ∨
        (MLS.geoLocation maxacc loc s true now acc err lat lng).2.previous.uptm ≠
            s.previous.uptm) →
        s.current.valid = true ∧
        (MLS.geoLocation maxacc loc s true now acc err lat lng).2.previous =
          s.current) ∧
      (¬(0 ≤ acc ∧ acc ≤ maxacc) →
        (MLS.geoLocation maxacc loc s true now acc err lat lng).2.current.valid =
          false ∧
        (MLS.geoLocation maxacc loc s true now acc err lat lng).2.previous =
          (if 3600000 < usub32 now s.previous.uptm
           then { s.previous with valid := false } else s.previous))) ∧
    (∀ (s : MLSState α L) (now : Nat) (acc err : Int) (lat lng : α),
      MLS.geoLocation maxacc loc s false now acc err lat lng = (-1, s)) := by
  refine ⟨?_, ?_, ?_⟩
  · intro s now acc temp
    by_cases h1 : GEO.networksChanged s.nets s.prevNets = false ∧
        s.current.valid = true
    · constructor
      · intro hne
        exfalso
        simp only [GEO.geoLocation, if_pos h1] at hne
        rcases hne with h | h | h <;> exact h rfl
      · intro hno _
        exact absurd h1 hno
    · by_cases h2 : 0 ≤ acc ∧ acc ≤ maxacc
      · constructor
        · intro hne
          simp only [GEO.geoLocation, if_neg h1, if_pos h2] at hne ⊢
          by_cases hv : s.current.valid = true
          · rw [if_pos hv]
            exact ⟨hv, rfl⟩
          · exfalso
            rw [if_neg hv] at hne
            by_cases hst : 3600000 < usub32 now s.previous.uptm
            · rw [if_pos hst] at hne
              rcases hne with h | h | h <;> exact h rfl
            · rw [if_neg hst] at hne
              rcases hne with h | h | h <;> exact h rfl
        · intro _ hrej
          exact absurd h2 hrej
      · constructor
        · intro hne
          exfalso
          simp only [GEO.geoLocation, if_neg h1, if_neg h2] at hne
          by_cases hst : 3600000 < usub32 now s.previous.uptm
          · rw [if_pos hst] at hne
            rcases hne with h | h | h <;> exact h rfl
          · rw [if_neg hst] at hne
            rcases hne with h | h | h <;> exact h rfl
        · intro _ _
          have heq : GEO.geoLocation maxacc loc s now acc temp =
              (acc, { current := { s.current with valid := false },
                      previous := if 3600000 < usub32 now s.previous.uptm
                                  then { s.previous with valid := false }
                                  else s.previous,
                      locator := s.locator, nets := s.nets,
                      prevNets := s.nets }) := by
            simp only [GEO.geoLocation, if_neg h1, if_neg h2]
          rw [heq]
          exact ⟨rfl, rfl, rfl⟩
  · intro s now acc err lat lng
    by_cases h2 : 0 ≤ acc ∧ acc ≤ maxacc
    · constructor
      · intro hne
        simp only [MLS.geoLocation, if_pos rfl, if_pos h2] at hne ⊢
        by_cases hv : s.current.valid = true
        · rw [if_pos hv]
          exact ⟨hv, rfl⟩
        · exfalso
          rw [if_neg hv] at hne
          by_cases hst : 3600000 < usub32 now s.previous.uptm
          · rw [if_pos hst] at hne
            rcases hne with h | h | h <;> exact h rfl
          · rw [if_neg hst] at hne
            rcases hne with h | h | h <;> exact h rfl
      · intro hrej
        exact absurd h2 hrej
    · constructor
      · intro hne
        exfalso
        simp only [MLS.geoLocation, if_pos rfl, if_neg h2] at hne
        by_cases hst : 3600000 < usub32 now s.previous.uptm
        · rw [if_pos hst] at hne
          rcases hne with h | h | h <;> exact h rfl
        · rw [if_neg hst] at hne
          rcases hne with h | h | h <;> exact h rfl
      · intro _
        simp only [MLS.geoLocation, if_pos rfl, if_neg h2]
        exact ⟨rfl, rfl⟩
  · intro s now acc err lat lng
    rfl

/-- Concrete GEO state for the C1 witness: fingerprint changed (one new
network against an empty baseline), valid current fix. -/
def c1wit : GEOState Int Int :=
  { current := ⟨45, 10, true, 100⟩, previous := ⟨44, 9, true, 50⟩,
    locator := 0, nets := [⟨[1, 2, 3, 4, 5, 6], -40⟩], prevNets := [] }

/-- Witness for C1: the rejected-result clause of the GEO part at a concrete
state and a backend failure (-4). -/
theorem C1_previous_discipline_witness :
    (GEO.geoLocation 2500 (fun a b => a + b) c1wit 6000 (-4) ⟨0, 0, true, 0⟩).1 =
      -4 ∧
    (GEO.geoLocation 2500 (fun a b => a + b) c1wit 6000 (-4)
        ⟨0, 0, true, 0⟩).2.current.valid = false ∧
    (GEO.geoLocation 2500 (fun a b => a + b) c1wit 6000 (-4)
        ⟨0, 0, true, 0⟩).2.previous =
      (if 3600000 < usub32 6000 c1wit.previous.uptm
       then { c1wit.previous with valid := false } else c1wit.previous) :=
  ((C1_previous_discipline 2500 (fun a b => a + b)).1 c1wit 6000 (-4)
    ⟨0, 0, true, 0⟩).2 (by decide) (by decide)

/-- `(int)` cast of a floating value: truncation toward zero. -/
noncomputable def truncR (x : ℝ) : Int := if 0 ≤ x then ⌊x⌋ else ⌈x⌉

/-- C `lround`: round to nearest, halves away from zero. -/
noncomputable def lroundR (x : ℝ) : Int := if 0 ≤ x then ⌊x + 1 / 2⌋ else ⌈x - 1 / 2⌉

/-- Arduino `radians(deg)`: degrees to radians. -/
noncomputable def radiansR (x : ℝ) : ℝ := x * (Real.pi / 180)

/-- Arduino `degrees(rad)`: radians to degrees. -/
noncomputable def degreesR (x : ℝ) : ℝ := x * (180 / Real.pi)

/-- C `atan2(y, x)`, modelled as the argument of the complex number `x + y·i`:
range (-π, π], with `atan2(0, 0) = 0` as in the C library. -/
noncomputable def atan2R (y x : ℝ) : ℝ := Complex.arg ⟨x, y⟩

namespace GEO

/-- `GEO::getDistance` (geo.cpp:300-324): haversine-style great-circle
distance on a sphere of radius 6372795 m, with the same intermediate
expressions as the source (`delta` for the longitude difference, the
chord/straight components fed to `atan2`). -/
noncomputable def getDistance (lat1 long1 lat2 long2 : ℝ) : ℝ :=
  atan2R
    (Real.sqrt
      ((Real.cos (radiansR lat1) * Real.sin (radiansR lat2) -
          Real.sin (radiansR lat1) * Real.cos (radiansR lat2) *
            Real.cos (radiansR (long1 - long2))) ^ 2 +
        (Real.cos (radiansR lat2) * Real.sin (radiansR (long1 - long2))) ^ 2))
    (Real.sin (radiansR lat1) * Real.sin (radiansR lat2) +
      Real.cos (radiansR lat1) * Real.cos (radiansR lat2) *
        Real.cos (radiansR (long1 - long2))) * 6372795

/-- `GEO::getBearing` (geo.cpp:340-354): forward azimuth
`(int)(degrees(atan2(a1, a2)) + 360) % 360`, with the C `%` (truncated
modulus, `Int.tmod`). There is no identical-point check in the source. -/
noncomputable def getBearing (lat1 long1 lat2 long2 : ℝ) : Int :=
  Int.tmod
    (truncR (degreesR (atan2R
        (Real.sin (radiansR (long2 - long1)) * Real.cos (radiansR lat2))
        (Real.cos (radiansR lat1) * Real.sin (radiansR lat2) -
          Real.sin (radiansR lat1) * Real.cos (radiansR lat2) *
            Real.cos (radiansR (long2 - long1)))) + 360))
    360

end GEO

namespace MLS

/-- `MLS::getDistance` (mls.cpp:266-283): textually identical to
`GEO::getDistance`. -/
noncomputable def getDistance (lat1 long1 lat2 long2 : ℝ) : ℝ :=
  GEO.getDistance lat1 long1 lat2 long2

/-- `MLS::getBearing` (mls.cpp:291-300): textually identical to
`GEO::getBearing`. -/
noncomputable def getBearing (lat1 long1 lat2 long2 : ℝ) : Int :=
  GEO.getBearing lat1 long1 lat2 long2

end MLS

/-- Movement state of the `GEO` class (geo.h:166-172): `int distance`,
`float speed`, `int knots`, `int bearing`. -/
structure GEONav where
  current : GeoFix ℝ
  previous : GeoFix ℝ
  distance : Int
  speed : ℝ
  knots : Int
  bearing : Int

/-- Movement state of the `MLS` class (mls.h:58-63): `float distance`,
`float speed`, `int knots`, `int bearing`. -/
structure MLSNav where
  current : GeoFix ℝ
  previous : GeoFix ℝ
  distance : ℝ
  speed : ℝ
  knots : Int
  bearing : Int

namespace GEO

/-- `GEO::getMovement` (geo.cpp:254-282). With both fixes valid: store the
truncated distance (the member is `int`), compute the speed from that already
truncated member, round to knots, and compute a bearing only when
`knots > 0`; otherwise reset distance/speed/knots and set the -1 bearing
sentinel. (The uptime difference is 32-bit unsigned; real division by zero
follows Lean's 0 convention in the model.) -/
noncomputable def getMovement (s : GEONav) : GEONav :=
  if s.current.valid = true ∧ s.previous.valid = true then
    let dist := truncR (getDistance s.previous.latitude s.previous.longitude
        s.current.latitude s.current.longitude)
    let speed := 1000 * (dist : ℝ) / (usub32 s.current.uptm s.previous.uptm : ℝ)
    let knots := lroundR (speed * 1.94384449)
    { s with distance := dist, speed := speed, knots := knots,
             bearing := if 0 < knots
                        then getBearing s.previous.latitude s.previous.longitude
                            s.current.latitude s.current.longitude
                        else s.bearing }
  else
    { s with distance := 0, speed := 0, knots := 0, bearing := -1 }

end GEO

namespace MLS

/-- `MLS::getMovement` (mls.cpp:238-257). Same shape as the GEO version
except that `distance` is a `float` member (no truncation) and — notably —
the invalid branch resets only distance, speed and knots: `bearing` is left
untouched. -/
noncomputable def getMovement (s : MLSNav) : MLSNav :=
  if s.current.valid = true ∧ s.previous.valid = true then
    let dist := getDistance s.previous.latitude s.previous.longitude
        s.current.latitude s.current.longitude
    let speed := 1000 * dist / (usub32 s.current.uptm s.previous.uptm : ℝ)
    let knots := lroundR (speed * 1.94384449)
    { s with distance := dist, speed := speed, knots := knots,
             bearing := if 0 < knots
                        then getBearing s.previous.latitude s.previous.longitude
                            s.current.latitude s.current.longitude
                        else s.bearing }
  else
    { s with distance := 0, speed := 0, knots := 0 }

end MLS

theorem atan2R_zero_zero : atan2R 0 0 = 0 := by
  unfold atan2R
  have h : (⟨0, 0⟩ : ℂ) = 0 := by
    apply Complex.ext <;> simp
  rw [h, Complex.arg_zero]

theorem truncR_zero : truncR 0 = 0 := by
  unfold truncR
  rw [if_pos le_rfl]
  exact Int.floor_zero

theorem lroundR_zero : lroundR 0 = 0 := by
  unfold lroundR
  rw [if_pos le_rfl]
  norm_num

theorem degreesR_zero : degreesR 0 = 0 := by simp [degreesR]

theorem truncR_add360 : truncR ((0 : ℝ) + 360) = 360 := by
  unfold truncR
  rw [if_pos (by norm_num)]
  norm_num

/-- At identical input points `getBearing` has no special case: every
intermediate is 0, `atan2(0,0)` is 0, and the normalized result is the
ordinary angle 0 (due north), not a sentinel. -/
theorem getBearing_same (lat lon : ℝ) : GEO.getBearing lat lon lat lon = 0 := by
  unfold GEO.getBearing
  have h0 : radiansR (lon - lon) = 0 := by simp [radiansR]
  rw [h0, Real.sin_zero, Real.cos_zero]
  have ha1 : (0 : ℝ) * Real.cos (radiansR lat) = 0 := zero_mul _
  have ha2 : Real.cos (radiansR lat) * Real.sin (radiansR lat) -
      Real.sin (radiansR lat) * Real.cos (radiansR lat) * 1 = 0 := by ring
  rw [ha1, ha2, atan2R_zero_zero, degreesR_zero, truncR_add360]
  decide

/-- The normalization `(int)(degrees(θ) + 360) % 360` lands in [0, 360) for
any atan2 output θ ∈ (-π, π]. -/
theorem tmod_trunc_range (θ : ℝ) (h1 : -Real.pi < θ) :
    0 ≤ Int.tmod (truncR (degreesR θ + 360)) 360 ∧
      Int.tmod (truncR (degreesR θ + 360)) 360 < 360 := by
  have hπ := Real.pi_pos
  have hx : (0 : ℝ) ≤ degreesR θ + 360 := by
    unfold degreesR
    have hpos : 0 < 180 / Real.pi := by positivity
    have hcalc : -Real.pi * (180 / Real.pi) = -180 := by
      field_simp
      ring
    have := mul_lt_mul_of_pos_right h1 hpos
    rw [hcalc] at this
    linarith
  have h0t : 0 ≤ truncR (degreesR θ + 360) := by
    unfold truncR
    rw [if_pos hx]
    exact Int.le_floor.mpr (by exact_mod_cast hx)
  exact ⟨Int.tmod_nonneg 360 h0t, Int.tmod_lt_of_pos _ (by norm_num)⟩

/-- Counterexample to C8 as stated: for two identical points `getBearing`
returns the computed angle 0, which coincides with the bearing of a genuine
due-north displacement from (0,0) to (10,0); there is no sentinel (the
repository's undefined-bearing sentinel is -1, produced in `getMovement`,
never by `getBearing`). -/
theorem C8_counterexample_identical_points :
    GEO.getBearing 45 10 45 10 = 0 ∧ GEO.getBearing 0 0 10 0 = 0 := by
  refine ⟨getBearing_same 45 10, ?_⟩
  unfold GEO.getBearing
  have h0 : radiansR ((0 : ℝ) - 0) = 0 := by simp [radiansR]
  have hr0 : radiansR (0 : ℝ) = 0 := by simp [radiansR]
  rw [h0, hr0, Real.sin_zero, Real.cos_zero]
  have ha1 : (0 : ℝ) * Real.cos (radiansR 10) = 0 := zero_mul _
  have ha2 : (1 : ℝ) * Real.sin (radiansR 10) - 0 * 1 =
      Real.sin (radiansR 10) := by ring
  rw [ha1, ha2]
  have hsin : 0 < Real.sin (radiansR 10) := by
    apply Real.sin_pos_of_pos_of_lt_pi
    · unfold radiansR
      positivity
    · unfold radiansR
      have := Real.pi_pos
      nlinarith
  have harg : atan2R 0 (Real.sin (radiansR 10)) = 0 := by
    unfold atan2R
    have hc : (⟨Real.sin (radiansR 10), 0⟩ : ℂ) =
        Complex.ofReal (Real.sin (radiansR 10)) := rfl
    rw [hc, Complex.arg_ofReal_of_nonneg hsin.le]
  rw [harg, degreesR_zero, truncR_add360]
  decide

/-- C8 (amended): `getBearing` applies no identical-point check: for equal
inputs it returns the ordinary normalized angle 0 (indistinguishable from due
north), and for all inputs the result is the forward azimuth normalized into
[0, 360). The undefined-bearing sentinel (-1) is maintained only by
`getMovement`, which skips the bearing computation when `knots` is 0. The MLS
version behaves identically. -/
theorem C8_getBearing_no_sentinel :
    (∀ lat lon : ℝ, GEO.getBearing lat lon lat lon = 0) ∧
    (∀ lat1 lon1 lat2 lon2 : ℝ,
      0 ≤ GEO.getBearing lat1 lon1 lat2 lon2 ∧
        GEO.getBearing lat1 lon1 lat2 lon2 < 360) ∧
    (∀ lat lon : ℝ, MLS.getBearing lat lon lat lon = 0) := by
  refine ⟨getBearing_same, ?_, fun lat lon => getBearing_same lat lon⟩
  intro lat1 lon1 lat2 lon2
  unfold GEO.getBearing atan2R
  exact tmod_trunc_range _ (Complex.neg_pi_lt_arg _)

/-- Concrete MLS movement state with an invalid current fix and a previously
computed bearing of 90. -/
noncomputable def c7stale : MLSNav :=
  { current := ⟨45, 10, false, 5000⟩, previous := ⟨44, 9, true, 1000⟩,
    distance := 3, speed := 2, knots := 1, bearing := 90 }

/-- Counterexample to C7 as stated: in `MLS::getMovement` the invalid branch
resets distance, speed and knots but does not touch `bearing`, so after the
call the bearing still holds the stale 90, not an undefined sentinel. -/
theorem C7_counterexample_mls_bearing_kept :
    (MLS.getMovement c7stale).bearing = 90 ∧
    (MLS.getMovement c7stale).distance = 0 ∧
    (MLS.getMovement c7stale).knots = 0 ∧
    c7stale.current.valid = false := by
  have h : ¬(c7stale.current.valid = true ∧ c7stale.previous.valid = true) := by
    intro hc
    exact Bool.false_ne_true hc.1
  have hred : MLS.getMovement c7stale =
      { c7stale with distance := 0, speed := 0, knots := 0 } := by
    simp only [MLS.getMovement, if_neg h]
  rw [hred]
  exact ⟨rfl, rfl, rfl, rfl⟩

/-- C7 (amended): if either fix is invalid, `GEO::getMovement` resets
distance, speed and knots to 0 and sets the -1 bearing sentinel, while
`MLS::getMovement` resets only distance, speed and knots and leaves the old
bearing in place; in both versions, when both fixes are valid but the
computed knots value is 0, the bearing is not recomputed — it keeps its
previous value. -/
theorem C7_getMovement_stationary :
    (∀ s : GEONav, ¬(s.current.valid = true ∧ s.previous.valid = true) →
      GEO.getMovement s =
        { s with distance := 0, speed := 0, knots := 0, bearing := -1 }) ∧
    (∀ s : MLSNav, ¬(s.current.valid = true ∧ s.previous.valid = true) →
      MLS.getMovement s = { s with distance := 0, speed := 0, knots := 0 }) ∧
    (∀ s : GEONav, s.current.valid = true → s.previous.valid = true →
      (GEO.getMovement s).knots = 0 → (GEO.getMovement s).bearing = s.bearing) ∧
    (∀ s : MLSNav, s.current.valid = true → s.previous.valid = true →
      (MLS.getMovement s).knots = 0 → (MLS.getMovement s).bearing = s.bearing) := by
  refine ⟨?_, ?_, ?_, ?_⟩
  · intro s h
    simp only [GEO.getMovement, if_neg h]
  · intro s h
    simp only [MLS.getMovement, if_neg h]
  · intro s hc hp hk
    have hvv : s.current.valid = true ∧ s.previous.valid = true := ⟨hc, hp⟩
    simp only [GEO.getMovement, if_pos hvv] at hk ⊢
    rw [hk]
    simp
  · intro s hc hp hk
    have hvv : s.current.valid = true ∧ s.previous.valid = true := ⟨hc, hp⟩
    simp only [MLS.getMovement, if_pos hvv] at hk ⊢
    rw [hk]
    simp

/-- Concrete GEO movement state: both fixes valid at the same coordinates,
so the computed distance, speed and knots are all 0. -/
noncomputable def c7wit : GEONav :=
  { current := ⟨0, 0, true, 2000⟩, previous := ⟨0, 0, true, 1000⟩,
    distance := 5, speed := 1, knots := 2, bearing := 77 }

theorem getDistance_zero_zero : GEO.getDistance 0 0 0 0 = 0 := by
  unfold GEO.getDistance
  have h0 : radiansR ((0 : ℝ) - 0) = 0 := by simp [radiansR]
  have hr0 : radiansR (0 : ℝ) = 0 := by simp [radiansR]
  rw [h0, hr0, Real.sin_zero, Real.cos_zero]
  have hs : Real.sqrt (((1 : ℝ) * 0 - 0 * 1 * 1) ^ 2 + (1 * 0) ^ 2) = 0 := by
    norm_num
  rw [hs]
  have hd : (0 : ℝ) * 0 + 1 * 1 * 1 = 1 := by norm_num
  rw [hd]
  have harg : atan2R 0 1 = 0 := by
    unfold atan2R
    have hc : (⟨1, 0⟩ : ℂ) = 1 := by
      apply Complex.ext <;> simp
    rw [hc, Complex.arg_one]
  rw [harg, zero_mul]

/-- Witness for C7: the knots-zero clause of the GEO part at a concrete
stationary state — the bearing keeps its prior value 77. -/
theorem C7_getMovement_witness :
    (GEO.getMovement c7wit).knots = 0 ∧ (GEO.getMovement c7wit).bearing = 77 := by
  have hvv : c7wit.current.valid = true ∧ c7wit.previous.valid = true := ⟨rfl, rfl⟩
  have hknots : (GEO.getMovement c7wit).knots = 0 := by
    simp only [GEO.getMovement, if_pos hvv]
    show lroundR (1000 * ((truncR (GEO.getDistance 0 0 0 0) : ℤ) : ℝ) /
        ((usub32 2000 1000 : ℕ) : ℝ) * 1.94384449) = 0
    rw [getDistance_zero_zero, truncR_zero]
    norm_num [lroundR_zero]
  exact ⟨hknots,
    (C7_getMovement_stationary.2.2.1 c7wit rfl rfl hknots).trans rfl⟩

namespace APRS

/-- What the transport reports during one `send`: the `aprsClient.connected()`
flag and the byte count returned by `aprsClient.write`. -/
structure Transport where
  connected : Bool
  written : Nat
deriving DecidableEq, Repr

/-- APRS session state (aprs.h): callsign/passcode/object-name/server
buffers, symbol table and code, telemetry sequence (an `int`, initialised to
999), and the sticky `error` flag. -/
structure State where
  callSign : List Nat
  passCode : List Nat
  objectNm : List Nat
  server : List Nat
  port : Int
  table : Nat
  symbol : Nat
  aprsTlmSeq : Int
  error : Bool
deriving DecidableEq, Repr

/-- `APRS::send` (aprs.cpp:132-148), normal (non-DEVEL) build: if the
transport is connected, write the packet and set `error` on a short write;
if disconnected, set `error`. The return value `result & (~error)` is true
only when connected and the (possibly just set) error flag is clear. -/
def send (s : State) (t : Transport) (pkt : List Nat) : Bool × State :=
  if t.connected = true then
    if t.written = pkt.length then (!s.error, s)
    else (false, { s with error := true })
  else
    (false, { s with error := true })

/-- `padCallSign` of aprs.cpp:466-474: the callsign padded with spaces to 9
characters. -/
def pad9 (cs : List Nat) : List Nat := cs ++ List.replicate (9 - cs.length) 32

/-- The shared telemetry-definition packet header (aprs.cpp:477-481):
callsign, the APRS path `>APEWPS,TCPIP*:`, ':', padded callsign, ':'. -/
def telemetryHeader (callSign : List Nat) : List Nat :=
  callSign ++ strBytes ">APEWPS,TCPIP*:" ++ strBytes ":" ++
    pad9 callSign ++ strBytes ":"

/-- The four telemetry-definition packets (aprs.cpp:485-509): parameter
names, equations, units, and bit-sense plus NODENAME/VERSION, each the shared
header plus one payload plus CRLF (the buffer is trimmed back to the header
between sends). -/
def setupPackets (callSign : List Nat) : List (List Nat) :=
  [telemetryHeader callSign ++
     strBytes "PARM.Vcc,RSSI,Heap,Acc,Spd,PROBE,FIX,FST,SLW,VCC,HT,RB,TM" ++
     [13, 10],
   telemetryHeader callSign ++
     strBytes "EQNS.0,0.004,2.5,0,-1,0,0,256,0,0,1,0,0.0008,0,0" ++ [13, 10],
   telemetryHeader callSign ++
     strBytes "UNIT.V,dBm,Bytes,m,m/s,prb,on,fst,slw,bad,ht,rb,er" ++ [13, 10],
   telemetryHeader callSign ++ strBytes "BITS.11111111, " ++
     strBytes "WiFiTrk" ++ strBytes "/" ++ strBytes "0.3.3" ++ [13, 10]]

/-- `APRS::sendTelemetrySetup` (aprs.cpp:464-511): send the four definition
packets in order, AND-ing the results. -/
def sendTelemetrySetup (s : State) (t1 t2 t3 t4 : Transport) : Bool × State :=
  let p := setupPackets s.callSign
  let a1 := send s t1 (p.getD 0 [])
  let a2 := send a1.2 t2 (p.getD 1 [])
  let a3 := send a2.2 t3 (p.getD 2 [])
  let a4 := send a3.2 t4 (p.getD 3 [])
  ((((true && a1.1) && a2.1) && a3.1) && a4.1, a4.2)

/-- Binary digits (`itoa(bits, buf, 2)`). -/
def binDigitsAux : Nat → Nat → List Nat
  | 0, _ => []
  | fuel + 1, n => if n < 2 then [48 + n] else binDigitsAux fuel (n / 2) ++ [48 + n % 2]

/-- Binary rendering of the telemetry bit flags. -/
def binDigits (n : Nat) : List Nat := binDigitsAux (n + 1) n

/-- The telemetry data packet `T#SSS,PPP,PPP,PPP,PPP,PPP,BBBBBBBB`
(aprs.cpp:451-457). -/
def telemetryPacket (callSign : List Nat) (seq p1 p2 p3 p4 p5 : Int)
    (bits : Nat) : List Nat :=
  callSign ++ strBytes ">APEWPS,TCPIP*:" ++ strBytes "T#" ++
    NMEA.fmtIntW 3 seq ++ [44] ++ NMEA.fmtIntW 3 p1 ++ [44] ++
    NMEA.fmtIntW 3 p2 ++ [44] ++ NMEA.fmtIntW 3 p3 ++ [44] ++
    NMEA.fmtIntW 3 p4 ++ [44] ++ NMEA.fmtIntW 3 p5 ++ [44] ++
    binDigits bits ++ [13, 10]

/-- `APRS::sendTelemetry` (aprs.cpp:443-459): pre-increment the sequence,
wrap above 999 to 0, send the definition burst exactly when the new sequence
is 0, then send the data packet. Besides the result and the new state, the
model returns the list of packets handed to `send`, burst first. -/
def sendTelemetry (s : State) (t1 t2 t3 t4 t5 : Transport)
    (p1 p2 p3 p4 p5 : Int) (bits : Nat) : Bool × State × List (List Nat) :=
  let seq1 : Int := if 999 < s.aprsTlmSeq + 1 then 0 else s.aprsTlmSeq + 1
  let s0 : State := { s with aprsTlmSeq := seq1 }
  let s1 : State := if seq1 = 0 then (sendTelemetrySetup s0 t1 t2 t3 t4).2 else s0
  let pkt := telemetryPacket s1.callSign seq1 p1 p2 p3 p4 p5 bits
  let a := send s1 t5 pkt
  (a.1, a.2, (if seq1 = 0 then setupPackets s0.callSign else []) ++ [pkt])

end APRS

theorem send_callSign (s : APRS.State) (t : APRS.Transport) (p : List Nat) :
    (APRS.send s t p).2.callSign = s.callSign := by
  unfold APRS.send
  by_cases hc : t.connected = true
  · rw [if_pos hc]
    by_cases hw : t.written = p.length
    · rw [if_pos hw]
    · rw [if_neg hw]
  · rw [if_neg hc]

theorem send_seq (s : APRS.State) (t : APRS.Transport) (p : List Nat) :
    (APRS.send s t p).2.aprsTlmSeq = s.aprsTlmSeq := by
  unfold APRS.send
  by_cases hc : t.connected = true
  · rw [if_pos hc]
    by_cases hw : t.written = p.length
    · rw [if_pos hw]
    · rw [if_neg hw]
  · rw [if_neg hc]

theorem send_error_mono (s : APRS.State) (t : APRS.Transport) (p : List Nat)
    (h : s.error = true) : (APRS.send s t p).2.error = true := by
  unfold APRS.send
  by_cases hc : t.connected = true
  · rw [if_pos hc]
    by_cases hw : t.written = p.length
    · rw [if_pos hw]
      exact h
    · rw [if_neg hw]
  · rw [if_neg hc]

theorem send_result_false (s : APRS.State) (t : APRS.Transport) (p : List Nat)
    (h : s.error = true) : (APRS.send s t p).1 = false := by
  unfold APRS.send
  by_cases hc : t.connected = true
  · rw [if_pos hc]
    by_cases hw : t.written = p.length
    · rw [if_pos hw]
      simp [h]
    · rw [if_neg hw]
  · rw [if_neg hc]

theorem setup_callSign (s : APRS.State) (t1 t2 t3 t4 : APRS.Transport) :
    (APRS.sendTelemetrySetup s t1 t2 t3 t4).2.callSign = s.callSign := by
  unfold APRS.sendTelemetrySetup
  simp only [send_callSign]

theorem setup_seq (s : APRS.State) (t1 t2 t3 t4 : APRS.Transport) :
    (APRS.sendTelemetrySetup s t1 t2 t3 t4).2.aprsTlmSeq = s.aprsTlmSeq := by
  unfold APRS.sendTelemetrySetup
  simp only [send_seq]

theorem setup_error_mono (s : APRS.State) (t1 t2 t3 t4 : APRS.Transport)
    (h : s.error = true) :
    (APRS.sendTelemetrySetup s t1 t2 t3 t4).2.error = true := by
  unfold APRS.sendTelemetrySetup
  exact send_error_mono _ _ _ (send_error_mono _ _ _
    (send_error_mono _ _ _ (send_error_mono _ _ _ h)))

theorem setupPackets_header (cs : List Nat) :
    ∀ p ∈ APRS.setupPackets cs, ∃ rest, p = APRS.telemetryHeader cs ++ rest := by
  intro p hp
  simp only [APRS.setupPackets, List.mem_cons, List.not_mem_nil, or_false] at hp
  rcases hp with rfl | rfl | rfl | rfl
  · exact ⟨_, by rw [List.append_assoc]⟩
  · exact ⟨_, by rw [List.append_assoc]⟩
  · exact ⟨_, by rw [List.append_assoc]⟩
  · refine ⟨strBytes "BITS.11111111, " ++ (strBytes "WiFiTrk" ++
      (strBytes "/" ++ (strBytes "0.3.3" ++ [13, 10]))), ?_⟩
    simp only [List.append_assoc]

/-- C6: given a sequence number in [0, 999] (it is initialised to 999 and
only ever written by this function), `sendTelemetry` leaves the new sequence
in [0, 999], increments it by exactly one with 999 wrapping to 0, and hands
the four-definition-packet burst to `send` exactly when the call wrapped —
i.e. exactly when the new sequence number is 0 — followed always by the one
telemetry data packet; each burst packet is the shared header followed by its
payload. -/
theorem C6_telemetry_sequence (s : APRS.State) (t1 t2 t3 t4 t5 : APRS.Transport)
    (p1 p2 p3 p4 p5 : Int) (bits : Nat)
    (h0 : 0 ≤ s.aprsTlmSeq) (h1 : s.aprsTlmSeq ≤ 999) :
    (0 ≤ (APRS.sendTelemetry s t1 t2 t3 t4 t5 p1 p2 p3 p4 p5 bits).2.1.aprsTlmSeq ∧
      (APRS.sendTelemetry s t1 t2 t3 t4 t5 p1 p2 p3 p4 p5 bits).2.1.aprsTlmSeq ≤ 999) ∧
    (APRS.sendTelemetry s t1 t2 t3 t4 t5 p1 p2 p3 p4 p5 bits).2.1.aprsTlmSeq =
      (s.aprsTlmSeq + 1) % 1000 ∧
    ((APRS.sendTelemetry s t1 t2 t3 t4 t5 p1 p2 p3 p4 p5 bits).2.1.aprsTlmSeq = 0 ↔
      s.aprsTlmSeq = 999) ∧
    (APRS.sendTelemetry s t1 t2 t3 t4 t5 p1 p2 p3 p4 p5 bits).2.2 =
      (if s.aprsTlmSeq = 999 then APRS.setupPackets s.callSign else []) ++
        [APRS.telemetryPacket s.callSign ((s.aprsTlmSeq + 1) % 1000)
          p1 p2 p3 p4 p5 bits] ∧
    (∀ p ∈ APRS.setupPackets s.callSign,
      ∃ rest, p = APRS.telemetryHeader s.callSign ++ rest) := by
  have hF := setupPackets_header s.callSign
  by_cases hw : s.aprsTlmSeq = 999
  · have hlt : 999 < s.aprsTlmSeq + 1 := by omega
    have h1000 : (s.aprsTlmSeq + 1) % 1000 = 0 := by omega
    simp only [APRS.sendTelemetry]
    rw [if_pos hlt]
    simp only [eq_self_iff_true, if_true, send_seq, setup_seq, setup_callSign,
      send_callSign]
    rw [if_pos hw, h1000]
    exact ⟨⟨le_refl 0, by norm_num⟩, rfl, by simp [hw], rfl, hF⟩
  · have hnlt : ¬(999 < s.aprsTlmSeq + 1) := by omega
    have hne : ¬(s.aprsTlmSeq + 1 = 0) := by omega
    have h1000 : (s.aprsTlmSeq + 1) % 1000 = s.aprsTlmSeq + 1 := by omega
    simp only [APRS.sendTelemetry]
    rw [if_neg hnlt]
    simp only [if_neg hne, send_seq]
    rw [if_neg hw, h1000]
    refine ⟨⟨by omega, by omega⟩, rfl, by constructor <;> intro hcc <;> omega, ?_, hF⟩
    simp

/-- Concrete APRS session with the sequence at 999, about to wrap. -/
def c6state : APRS.State :=
  { callSign := strBytes "N0CALL", passCode := strBytes "13023", objectNm := [],
    server := [], port := 14580, table := 47, symbol := 62,
    aprsTlmSeq := 999, error := false }

/-- Witness for C6: a call at sequence 999 wraps to 0 and sends the burst. -/
theorem C6_telemetry_sequence_witness :
    (0 ≤ (APRS.sendTelemetry c6state ⟨true, 0⟩ ⟨true, 0⟩ ⟨true, 0⟩ ⟨true, 0⟩
        ⟨true, 0⟩ 1 2 3 4 5 6).2.1.aprsTlmSeq ∧
      (APRS.sendTelemetry c6state ⟨true, 0⟩ ⟨true, 0⟩ ⟨true, 0⟩ ⟨true, 0⟩
        ⟨true, 0⟩ 1 2 3 4 5 6).2.1.aprsTlmSeq ≤ 999) ∧
    (APRS.sendTelemetry c6state ⟨true, 0⟩ ⟨true, 0⟩ ⟨true, 0⟩ ⟨true, 0⟩
      ⟨true, 0⟩ 1 2 3 4 5 6).2.1.aprsTlmSeq = (c6state.aprsTlmSeq + 1) % 1000 ∧
    ((APRS.sendTelemetry c6state ⟨true, 0⟩ ⟨true, 0⟩ ⟨true, 0⟩ ⟨true, 0⟩
      ⟨true, 0⟩ 1 2 3 4 5 6).2.1.aprsTlmSeq = 0 ↔ c6state.aprsTlmSeq = 999) ∧
    (APRS.sendTelemetry c6state ⟨true, 0⟩ ⟨true, 0⟩ ⟨true, 0⟩ ⟨true, 0⟩
      ⟨true, 0⟩ 1 2 3 4 5 6).2.2 =
      (if c6state.aprsTlmSeq = 999 then APRS.setupPackets c6state.callSign
       else []) ++
        [APRS.telemetryPacket c6state.callSign ((c6state.aprsTlmSeq + 1) % 1000)
          1 2 3 4 5 6] ∧
    (∀ p ∈ APRS.setupPackets c6state.callSign,
      ∃ rest, p = APRS.telemetryHeader c6state.callSign ++ rest) :=
  C6_telemetry_sequence c6state ⟨true, 0⟩ ⟨true, 0⟩ ⟨true, 0⟩ ⟨true, 0⟩
    ⟨true, 0⟩ 1 2 3 4 5 6 (by decide) (by decide)

namespace APRS

/-- `snprintf("%3d")`: decimal digits space-padded to width 3, used for the
derived passcode in `setCallSign`. -/
def fmtSp3 (n : Nat) : List Nat :=
  List.replicate (3 - (NMEA.natDigits n).length) 32 ++ NMEA.natDigits n

/-- The authentication line `user <CALL> pass <PASSCODE> vers <NAME>
<VERSION>\r\n` (aprs.cpp:189-197). -/
def authPacket (s : State) : List Nat :=
  strBytes "user " ++ s.callSign ++ strBytes " pass " ++ s.passCode ++
    strBytes " vers " ++ strBytes "WiFiTrk" ++ strBytes " " ++
    strBytes "0.3.3" ++ [13, 10]

/-- One invocation of a state-touching public `APRS` method, with the
transport observations it consumes. The Boolean of `connectOp` is the outcome
of `aprsClient.connect`; `authenticateOp`'s Boolean is whether the server
replied "verified" (it does not affect the session state). The packet-builder
methods `sendStatus` / `sendMessage` / `sendPosition` / `sendObjectPosition`
/ `sendWeather` mutate `error` only through the one `send(aprsPkt)` call they
end with, which `sendOp` covers for an arbitrary packet; `doPassCode`,
`time`, `coordinates`, `setLocation` and `setSymbol` never touch `error`. -/
inductive AOp where
  | connectOp (ok : Bool)
  | stopOp
  | setServerOp (srv : List Nat) (port : Int)
  | setCallSignOp (cs : List Nat)
  | setPassCodeOp (pc : List Nat)
  | setObjectNameOp (ob : List Nat)
  | setSymbolOp (tb sy : Nat)
  | sendOp (t : Transport) (pkt : List Nat)
  | authenticateOp (t : Transport) (verified : Bool)
  | sendTelemetrySetupOp (t1 t2 t3 t4 : Transport)
  | sendTelemetryOp (t1 t2 t3 t4 t5 : Transport) (p1 p2 p3 p4 p5 : Int)
      (bits : Nat)

/-- State effect of each public `APRS` method (aprs.cpp): `connect` sets
`error` on failure (aprs.cpp:46-50); `stop` only closes the socket;
`setServer`/`setCallSign`/`setPassCode`/`setObjectName`/`setSymbol` write
their buffers (`setCallSign` also derives the passcode; `setObjectName` pads
with '_'); `send` is modelled above; `authenticate` sends the credentials
line only when connected; the telemetry methods are modelled above. No
method ever assigns `error = false`. -/
def applyOp (s : State) (op : AOp) : State :=
  match op with
  | .connectOp ok => if ok then s else { s with error := true }
  | .stopOp => s
  | .setServerOp srv port => { s with server := srv, port := port }
  | .setCallSignOp cs =>
      { s with callSign := cs, passCode := fmtSp3 (doPassCode cs) }
  | .setPassCodeOp pc => { s with passCode := pc }
  | .setObjectNameOp ob =>
      { s with objectNm := ob ++ List.replicate (9 - ob.length) 95 }
  | .setSymbolOp tb sy => { s with table := tb, symbol := sy }
  | .sendOp t pkt => (send s t pkt).2
  | .authenticateOp t _ =>
      if t.connected = true then (send s t (authPacket s)).2 else s
  | .sendTelemetrySetupOp t1 t2 t3 t4 => (sendTelemetrySetup s t1 t2 t3 t4).2
  | .sendTelemetryOp t1 t2 t3 t4 t5 p1 p2 p3 p4 p5 bits =>
      (sendTelemetry s t1 t2 t3 t4 t5 p1 p2 p3 p4 p5 bits).2.1

end APRS

theorem sendTelemetry_error_mono (s : APRS.State)
    (t1 t2 t3 t4 t5 : APRS.Transport) (p1 p2 p3 p4 p5 : Int) (bits : Nat)
    (h : s.error = true) :
    (APRS.sendTelemetry s t1 t2 t3 t4 t5 p1 p2 p3 p4 p5 bits).2.1.error = true := by
  simp only [APRS.sendTelemetry]
  apply send_error_mono
  by_cases hz : (if 999 < s.aprsTlmSeq + 1 then (0 : Int) else s.aprsTlmSeq + 1) = 0
  · rw [if_pos hz]
    exact setup_error_mono _ t1 t2 t3 t4 h
  · rw [if_neg hz]
    exact h

/-- C10: once the session `error` flag is set — which a failed connect, a
send while disconnected, and a short write all do — no APRS operation ever
clears it, and every subsequent `send` returns false even when the transport
reports connected and the write transfers the full packet. -/
theorem C10_sticky_error (s : APRS.State) (h : s.error = true) :
    (∀ op : APRS.AOp, (APRS.applyOp s op).error = true) ∧
    (∀ (t : APRS.Transport) (pkt : List Nat), (APRS.send s t pkt).1 = false) ∧
    (∀ (s2 : APRS.State) (w : Nat) (pkt : List Nat),
      (APRS.send s2 ⟨false, w⟩ pkt).2.error = true) ∧
    (∀ (s2 : APRS.State) (t : APRS.Transport) (pkt : List Nat),
      t.connected = true → t.written ≠ pkt.length →
      (APRS.send s2 t pkt).2.error = true) ∧
    (∀ s2 : APRS.State, (APRS.applyOp s2 (APRS.AOp.connectOp false)).error = true) := by
  refine ⟨?_, ?_, ?_, ?_, ?_⟩
  · intro op
    cases op with
    | connectOp ok =>
      cases ok
      · rfl
      · exact h
    | stopOp => exact h
    | setServerOp srv port => exact h
    | setCallSignOp cs => exact h
    | setPassCodeOp pc => exact h
    | setObjectNameOp ob => exact h
    | setSymbolOp tb sy => exact h
    | sendOp t pkt => exact send_error_mono _ _ _ h
    | authenticateOp t v =>
      simp only [APRS.applyOp]
      by_cases hc : t.connected = true
      · rw [if_pos hc]
        exact send_error_mono _ _ _ h
      · rw [if_neg hc]
        exact h
    | sendTelemetrySetupOp t1 t2 t3 t4 => exact setup_error_mono _ _ _ _ _ h
    | sendTelemetryOp t1 t2 t3 t4 t5 p1 p2 p3 p4 p5 bits =>
      exact sendTelemetry_error_mono _ _ _ _ _ _ _ _ _ _ _ _ h
  · intro t pkt
    exact send_result_false _ _ _ h
  · intro s2 w pkt
    rfl
  · intro s2 t pkt hc hw
    unfold APRS.send
    rw [if_pos hc, if_neg hw]
  · intro s2
    rfl

/-- Concrete APRS session whose error flag is already set. -/
def c10err : APRS.State :=
  { callSign := strBytes "N0CALL", passCode := strBytes "13023", objectNm := [],
    server := [], port := 14580, table := 47, symbol := 62,
    aprsTlmSeq := 5, error := true }

/-- Witness for C10: with the flag set, a fully successful transport (still
connected, full-length write) still yields a false `send` result and the
flag survives the operation. -/
theorem C10_sticky_error_witness :
    (APRS.applyOp c10err (APRS.AOp.sendOp ⟨true, 3⟩ [65, 66, 67])).error = true ∧
    (APRS.send c10err ⟨true, 3⟩ [65, 66, 67]).1 = false :=
  ⟨(C10_sticky_error c10err rfl).1 (APRS.AOp.sendOp ⟨true, 3⟩ [65, 66, 67]),
   (C10_sticky_error c10err rfl).2.1 ⟨true, 3⟩ [65, 66, 67]⟩
